import Mathlib

/-!
# drivers/misc/mpu3050/log.h : the MPL logging macros

The header is macro plumbing only, so the embedding is of the C preprocessor
applied to it.  Every `#define` of the header is one Lean definition with the
macro's name: an object-like macro is a token sequence, a function-like macro
is a function from its arguments to its replacement.  A replacement is kept
as a small syntax tree (`Code`) whose leaves are the token sequences the
caller wrote, so that it can be both compared as text and executed.

Conventions.

* A macro argument is a token sequence (`Toks`).  It is what the caller wrote
  between two top-level commas, without the white space around it, and it is
  taken to contain no macro names of its own, so that it passes through the
  preprocessor as written.
* `fmt, ##__VA_ARGS__` is `fmt :: va`, where `va` is the list of variadic
  arguments: with none supplied the GNU comma deletion leaves `fmt` alone.
* The guards `#ifndef MPL_LOGV`, `#ifndef CONDITION`, ... let a translation
  unit bring its own definition of a macro; the embedding is of the header's
  own definitions, that is of a translation unit that predefines none of
  them (only `MPL_LOG_NDEBUG` and `MPL_LOG_TAG`, which are in `Config`).
* `LOG`, `printk`, `pr_debug`, `android_printAssert`, `android_vprintLog`,
  `_MLPrintLog`, `_MLPrintVaLog` and the `KERN_*` levels come from outside
  the header and stay as names.
-/

namespace MplLog

/-! ## Tokens and syntax -/

/-- A preprocessing token. -/
inductive Tok where
  /-- An identifier. -/
  | ident (name : String)
  /-- A string literal, given by its contents. -/
  | strLit (body : String)
  /-- A preprocessing number, given by its spelling. -/
  | number (text : String)
  /-- A character constant, given by its contents. -/
  | charLit (body : String)
  /-- A punctuator or operator, given by its spelling. -/
  | punct (text : String)
  /-- A run of white space between two tokens of an argument (kept because
  the operator `#` spells it as one blank). -/
  | white
  deriving DecidableEq, Repr

/-- A token sequence: one macro argument, or the body of an object-like macro. -/
abbrev Toks := List Tok

/-- Syntax of the replacement lists of the header.  `call` keeps each argument
of the call as a token sequence; a first argument such as
`KERN_ERR MPL_LOG_TAG fmt` is the concatenation of the three. -/
inductive Code where
  /-- An expression written by the caller (the `cond` of an `_IF` macro). -/
  | frag (t : Toks)
  /-- Parentheses: `( e )`. -/
  | paren (e : Code)
  /-- Comparison `e != 0`. -/
  | ne0 (e : Code)
  /-- Function call `fn(arg, ..., arg)`. -/
  | call (fn : String) (args : List Toks)
  /-- Cast `(void) e`. -/
  | castVoid (e : Code)
  /-- The expression `(void)0`. -/
  | void0
  /-- Conditional expression `c ? t : e`. -/
  | cond (c t e : Code)
  /-- Expression statement `e ;`. -/
  | semi (e : Code)
  /-- Selection statement `if (0) s`. -/
  | ifZero (s : Code)
  /-- Loop `do { s } while (0)`, complete but for the final `;`, which the
  caller of the macro writes. -/
  | doWhileZero (s : Code)
  deriving DecidableEq, Repr

/-- What the preprocessor reports while expanding. -/
inductive Diag where
  /-- A function-like macro used with fewer arguments than it has named
  parameters; the invocation is left as it stands. -/
  | tooFewArgs (name : String) (required given : Nat)
  /-- `##` whose operands do not form one token; both are left as they stand. -/
  | badPaste (left right : Tok)
  deriving DecidableEq, Repr

/-- The result of expanding a macro invocation: the replacement and the
diagnostics raised on the way. -/
structure Expansion where
  code : Code
  diags : List Diag
  deriving DecidableEq, Repr

/-! ## Build configuration -/

/-- The preprocessor symbols the header tests. -/
structure Config where
  /-- Whether `ANDROID` is defined. -/
  ANDROID : Bool
  /-- Whether `__KERNEL__` is defined. -/
  __KERNEL__ : Bool
  /-- Whether `NDEBUG` is defined. -/
  NDEBUG : Bool
  /-- The value of `MPL_LOG_NDEBUG` when the translation unit defines it before
  including the header (`#define MPL_LOG_NDEBUG 0`), `none` when it does not. -/
  userNDEBUG : Option Int
  /-- The string constant of the translation unit's own
  `#define MPL_LOG_TAG "..."`, `none` when it has none. -/
  userTAG : Option String
  deriving DecidableEq, Repr

/-- Lines 53-59: `MPL_LOG_NDEBUG` keeps the translation unit's value, else is
1 under `NDEBUG` and 0 otherwise. -/
def MPL_LOG_NDEBUG (cfg : Config) : Int :=
  match cfg.userNDEBUG with
  | some v => v
  | none => if cfg.NDEBUG then 1 else 0

/-- Lines 76-78: `MPL_LOG_TAG` is the translation unit's string constant, else
is defined empty. -/
def MPL_LOG_TAG (cfg : Config) : Toks :=
  match cfg.userTAG with
  | some s => [Tok.strLit s]
  | none => []

/-! ## Priorities (lines 61-68) -/

/-- Line 62: `MPL_LOG_DEFAULT` is defined as `KERN_DEFAULT`. -/
def MPL_LOG_DEFAULT : Toks := [Tok.ident "KERN_DEFAULT"]

/-- Line 63: `MPL_LOG_VERBOSE` is defined as `KERN_CONT`. -/
def MPL_LOG_VERBOSE : Toks := [Tok.ident "KERN_CONT"]

/-- Line 64: `MPL_LOG_DEBUG` is defined as `KERN_NOTICE`. -/
def MPL_LOG_DEBUG : Toks := [Tok.ident "KERN_NOTICE"]

/-- Line 65: `MPL_LOG_INFO` is defined as `KERN_INFO`. -/
def MPL_LOG_INFO : Toks := [Tok.ident "KERN_INFO"]

/-- Line 66: `MPL_LOG_WARN` is defined as `KERN_WARNING`. -/
def MPL_LOG_WARN : Toks := [Tok.ident "KERN_WARNING"]

/-- Line 67: `MPL_LOG_ERROR` is defined as `KERN_ERR`. -/
def MPL_LOG_ERROR : Toks := [Tok.ident "KERN_ERR"]

/-- Line 61: `MPL_LOG_UNKNOWN` is defined as `MPL_LOG_VERBOSE`. -/
def MPL_LOG_UNKNOWN : Toks := MPL_LOG_VERBOSE

/-- Line 68: `MPL_LOG_SILENT` is defined as `MPL_LOG_VERBOSE`. -/
def MPL_LOG_SILENT : Toks := MPL_LOG_VERBOSE

/-- Rescan of one identifier: the object-like macros of lines 61-68 are
replaced by their definitions, any other identifier stays. -/
def rescanIdent (name : String) : Toks :=
  if name = "MPL_LOG_UNKNOWN" then MPL_LOG_UNKNOWN
  else if name = "MPL_LOG_DEFAULT" then MPL_LOG_DEFAULT
  else if name = "MPL_LOG_VERBOSE" then MPL_LOG_VERBOSE
  else if name = "MPL_LOG_DEBUG" then MPL_LOG_DEBUG
  else if name = "MPL_LOG_INFO" then MPL_LOG_INFO
  else if name = "MPL_LOG_WARN" then MPL_LOG_WARN
  else if name = "MPL_LOG_ERROR" then MPL_LOG_ERROR
  else if name = "MPL_LOG_SILENT" then MPL_LOG_SILENT
  else [Tok.ident name]

/-- Whether the spelling of a preprocessing number can continue an
identifier. -/
def identTail (text : String) : Bool :=
  text.all fun c => c.isAlphanum || c = '_'

/-- The replacement of `MPL_##priority`: `MPL_` is pasted to the first token of
the argument and the result is rescanned.  An empty argument leaves `MPL_`; a
first token that is no identifier part cannot be pasted. -/
def pasteMPL (priority : Toks) : Toks × List Diag :=
  match priority with
  | [] => ([Tok.ident "MPL_"], [])
  | Tok.ident name :: rest => (rescanIdent ("MPL_" ++ name) ++ rest, [])
  | Tok.number text :: rest =>
    if identTail text then (rescanIdent ("MPL_" ++ text) ++ rest, [])
    else (Tok.ident "MPL_" :: Tok.number text :: rest,
          [Diag.badPaste (Tok.ident "MPL_") (Tok.number text)])
  | t :: rest => (Tok.ident "MPL_" :: t :: rest, [Diag.badPaste (Tok.ident "MPL_") t])

/-! ## The basic log macros (lines 225-244) -/

/-- Lines 233-244, `MPL_LOG_PRI(priority, tag, fmt, ...)`:
`LOG(priority, tag, fmt, ##__VA_ARGS__)` under `ANDROID`, else
`pr_debug(MPL_##priority tag fmt, ##__VA_ARGS__)` under `__KERNEL__`, else
`_MLPrintLog(MPL_##priority, tag, fmt, ##__VA_ARGS__)`.  `args` are the
arguments of the invocation. -/
def MPL_LOG_PRI (cfg : Config) (args : List Toks) : Expansion :=
  match args with
  | priority :: tag :: fmt :: va =>
    if cfg.ANDROID then
      ⟨Code.call "LOG" (priority :: tag :: fmt :: va), []⟩
    else if cfg.__KERNEL__ then
      ⟨Code.call "pr_debug" (((pasteMPL priority).1 ++ tag ++ fmt) :: va),
        (pasteMPL priority).2⟩
    else
      ⟨Code.call "_MLPrintLog" ((pasteMPL priority).1 :: tag :: fmt :: va),
        (pasteMPL priority).2⟩
  | _ => ⟨Code.call "MPL_LOG_PRI" args, [Diag.tooFewArgs "MPL_LOG_PRI" 3 args.length]⟩

/-- Lines 225-228, `MPL_LOG(priority, tag, fmt, ...)`:
`MPL_LOG_PRI(priority, tag, fmt, ##__VA_ARGS__)`. -/
def MPL_LOG (cfg : Config) (args : List Toks) : Expansion :=
  match args with
  | priority :: tag :: fmt :: va => MPL_LOG_PRI cfg (priority :: tag :: fmt :: va)
  | _ => ⟨Code.call "MPL_LOG" args, [Diag.tooFewArgs "MPL_LOG" 3 args.length]⟩

/-! ## Stringification -/

/-- The spelling of a string or character constant inside the result of `#`:
a backslash is put before each double quote and each backslash. -/
def escapeLit (body : String) : String :=
  body.foldl (fun acc c => if c = '"' || c = '\\' then (acc.push '\\').push c else acc.push c) ""

/-- The spelling of one token inside the result of `#`. -/
def Tok.quoted : Tok → String
  | Tok.ident name => name
  | Tok.strLit body => "\\\"" ++ escapeLit body ++ "\\\""
  | Tok.charLit body => "\x27" ++ escapeLit body ++ "\x27"
  | Tok.number text => text
  | Tok.punct text => text
  | Tok.white => " "

/-- The operator `#` applied to a macro argument: the string literal that
spells the argument. -/
def stringify (arg : Toks) : Tok :=
  Tok.strLit (String.join (arg.map Tok.quoted))

/-! ## The level macros (lines 82-167) -/

/-- Lines 85-95, `MPL_LOGV(fmt, ...)`: when `MPL_LOG_NDEBUG` is non-zero
`do { if (0) MPL_LOG(LOG_VERBOSE, MPL_LOG_TAG, fmt, ##__VA_ARGS__); } while (0)`,
else `MPL_LOG(LOG_VERBOSE, MPL_LOG_TAG, fmt, ##__VA_ARGS__)`. -/
def MPL_LOGV (cfg : Config) (fmt : Toks) (va : List Toks) : Expansion :=
  if MPL_LOG_NDEBUG cfg ≠ 0 then
    ⟨Code.doWhileZero (Code.ifZero (Code.semi
        (MPL_LOG cfg ([Tok.ident "LOG_VERBOSE"] :: MPL_LOG_TAG cfg :: fmt :: va)).code)),
      (MPL_LOG cfg ([Tok.ident "LOG_VERBOSE"] :: MPL_LOG_TAG cfg :: fmt :: va)).diags⟩
  else
    MPL_LOG cfg ([Tok.ident "LOG_VERBOSE"] :: MPL_LOG_TAG cfg :: fmt :: va)

/-- Lines 97-99, `CONDITION(cond)`: `((cond) != 0)`. -/
def CONDITION (cond : Toks) : Code :=
  Code.paren (Code.ne0 (Code.paren (Code.frag cond)))

/-- Lines 101-111, `MPL_LOGV_IF(cond, fmt, ...)`: when `MPL_LOG_NDEBUG` is
non-zero `do { if (0) MPL_LOG(fmt, ##__VA_ARGS__); } while (0)`, else
`((CONDITION(cond)) ? MPL_LOG(LOG_VERBOSE, MPL_LOG_TAG, fmt, ##__VA_ARGS__) : (void)0)`. -/
def MPL_LOGV_IF (cfg : Config) (cond fmt : Toks) (va : List Toks) : Expansion :=
  if MPL_LOG_NDEBUG cfg ≠ 0 then
    ⟨Code.doWhileZero (Code.ifZero (Code.semi (MPL_LOG cfg (fmt :: va)).code)),
      (MPL_LOG cfg (fmt :: va)).diags⟩
  else
    ⟨Code.paren (Code.cond (Code.paren (CONDITION cond))
        (MPL_LOG cfg ([Tok.ident "LOG_VERBOSE"] :: MPL_LOG_TAG cfg :: fmt :: va)).code
        Code.void0),
      (MPL_LOG cfg ([Tok.ident "LOG_VERBOSE"] :: MPL_LOG_TAG cfg :: fmt :: va)).diags⟩

/-- Lines 116-118, `MPL_LOGD(fmt, ...)`:
`MPL_LOG(LOG_DEBUG, MPL_LOG_TAG, fmt, ##__VA_ARGS__)`. -/
def MPL_LOGD (cfg : Config) (fmt : Toks) (va : List Toks) : Expansion :=
  MPL_LOG cfg ([Tok.ident "LOG_DEBUG"] :: MPL_LOG_TAG cfg :: fmt :: va)

/-- Lines 120-125, `MPL_LOGD_IF(cond, fmt, ...)`:
`((CONDITION(cond)) ? MPL_LOG(LOG_DEBUG, MPL_LOG_TAG, fmt, ##__VA_ARGS__) : (void)0)`. -/
def MPL_LOGD_IF (cfg : Config) (cond fmt : Toks) (va : List Toks) : Expansion :=
  ⟨Code.paren (Code.cond (Code.paren (CONDITION cond))
      (MPL_LOG cfg ([Tok.ident "LOG_DEBUG"] :: MPL_LOG_TAG cfg :: fmt :: va)).code
      Code.void0),
    (MPL_LOG cfg ([Tok.ident "LOG_DEBUG"] :: MPL_LOG_TAG cfg :: fmt :: va)).diags⟩

/-- Lines 130-132, `MPL_LOGI(fmt, ...)`:
`MPL_LOG(LOG_INFO, MPL_LOG_TAG, fmt, ##__VA_ARGS__)`. -/
def MPL_LOGI (cfg : Config) (fmt : Toks) (va : List Toks) : Expansion :=
  MPL_LOG cfg ([Tok.ident "LOG_INFO"] :: MPL_LOG_TAG cfg :: fmt :: va)

/-- Lines 134-139, `MPL_LOGI_IF(cond, fmt, ...)`:
`((CONDITION(cond)) ? MPL_LOG(LOG_INFO, MPL_LOG_TAG, fmt, ##__VA_ARGS__) : (void)0)`. -/
def MPL_LOGI_IF (cfg : Config) (cond fmt : Toks) (va : List Toks) : Expansion :=
  ⟨Code.paren (Code.cond (Code.paren (CONDITION cond))
      (MPL_LOG cfg ([Tok.ident "LOG_INFO"] :: MPL_LOG_TAG cfg :: fmt :: va)).code
      Code.void0),
    (MPL_LOG cfg ([Tok.ident "LOG_INFO"] :: MPL_LOG_TAG cfg :: fmt :: va)).diags⟩

/-- Lines 144-146, `MPL_LOGW(fmt, ...)`:
`printk(KERN_WARNING MPL_LOG_TAG fmt, ##__VA_ARGS__)`, whatever the build. -/
def MPL_LOGW (cfg : Config) (fmt : Toks) (va : List Toks) : Expansion :=
  ⟨Code.call "printk" (([Tok.ident "KERN_WARNING"] ++ MPL_LOG_TAG cfg ++ fmt) :: va), []⟩

/-- Lines 148-153, `MPL_LOGW_IF(cond, fmt, ...)`:
`((CONDITION(cond)) ? MPL_LOG(LOG_WARN, MPL_LOG_TAG, fmt, ##__VA_ARGS__) : (void)0)`. -/
def MPL_LOGW_IF (cfg : Config) (cond fmt : Toks) (va : List Toks) : Expansion :=
  ⟨Code.paren (Code.cond (Code.paren (CONDITION cond))
      (MPL_LOG cfg ([Tok.ident "LOG_WARN"] :: MPL_LOG_TAG cfg :: fmt :: va)).code
      Code.void0),
    (MPL_LOG cfg ([Tok.ident "LOG_WARN"] :: MPL_LOG_TAG cfg :: fmt :: va)).diags⟩

/-- Lines 158-160, `MPL_LOGE(fmt, ...)`:
`printk(KERN_ERR MPL_LOG_TAG fmt, ##__VA_ARGS__)`, whatever the build. -/
def MPL_LOGE (cfg : Config) (fmt : Toks) (va : List Toks) : Expansion :=
  ⟨Code.call "printk" (([Tok.ident "KERN_ERR"] ++ MPL_LOG_TAG cfg ++ fmt) :: va), []⟩

/-- Lines 162-167, `MPL_LOGE_IF(cond, fmt, ...)`:
`((CONDITION(cond)) ? MPL_LOG(LOG_ERROR, MPL_LOG_TAG, fmt, ##__VA_ARGS__) : (void)0)`. -/
def MPL_LOGE_IF (cfg : Config) (cond fmt : Toks) (va : List Toks) : Expansion :=
  ⟨Code.paren (Code.cond (Code.paren (CONDITION cond))
      (MPL_LOG cfg ([Tok.ident "LOG_ERROR"] :: MPL_LOG_TAG cfg :: fmt :: va)).code
      Code.void0),
    (MPL_LOG cfg ([Tok.ident "LOG_ERROR"] :: MPL_LOG_TAG cfg :: fmt :: va)).diags⟩

/-! ## The fatal macros (lines 171-213) -/

/-- Lines 177-181, `MPL_LOG_ALWAYS_FATAL_IF(cond, fmt, ...)`:
`((CONDITION(cond)) ? ((void)android_printAssert(#cond, MPL_LOG_TAG, fmt, ##__VA_ARGS__)) : (void)0)`. -/
def MPL_LOG_ALWAYS_FATAL_IF (cfg : Config) (cond fmt : Toks) (va : List Toks) : Expansion :=
  ⟨Code.paren (Code.cond (Code.paren (CONDITION cond))
      (Code.paren (Code.castVoid
        (Code.call "android_printAssert" ([stringify cond] :: MPL_LOG_TAG cfg :: fmt :: va))))
      Code.void0),
    []⟩

/-- Lines 183-184, `MPL_LOG_ALWAYS_FATAL(fmt, ...)`:
`(((void)android_printAssert(NULL, MPL_LOG_TAG, fmt, ##__VA_ARGS__)))`. -/
def MPL_LOG_ALWAYS_FATAL (cfg : Config) (fmt : Toks) (va : List Toks) : Expansion :=
  ⟨Code.paren (Code.paren (Code.castVoid
      (Code.call "android_printAssert" ([Tok.ident "NULL"] :: MPL_LOG_TAG cfg :: fmt :: va)))),
    []⟩

/-- Lines 190-206, `MPL_LOG_FATAL_IF(cond, fmt, ...)`: when `MPL_LOG_NDEBUG` is
non-zero `do { if (0) MPL_LOG_ALWAYS_FATAL_IF(cond, fmt, ##__VA_ARGS__); } while (0)`,
else `MPL_LOG_ALWAYS_FATAL_IF(cond, fmt, ##__VA_ARGS__)`. -/
def MPL_LOG_FATAL_IF (cfg : Config) (cond fmt : Toks) (va : List Toks) : Expansion :=
  if MPL_LOG_NDEBUG cfg ≠ 0 then
    ⟨Code.doWhileZero (Code.ifZero (Code.semi (MPL_LOG_ALWAYS_FATAL_IF cfg cond fmt va).code)),
      (MPL_LOG_ALWAYS_FATAL_IF cfg cond fmt va).diags⟩
  else
    MPL_LOG_ALWAYS_FATAL_IF cfg cond fmt va

/-- Lines 190-206, `MPL_LOG_FATAL(fmt, ...)`: when `MPL_LOG_NDEBUG` is non-zero
`do { if (0) MPL_LOG_ALWAYS_FATAL(fmt, ##__VA_ARGS__) } while (0)`, with no `;`
after the invocation (line 199), else `MPL_LOG_ALWAYS_FATAL(fmt, ##__VA_ARGS__)`. -/
def MPL_LOG_FATAL (cfg : Config) (fmt : Toks) (va : List Toks) : Expansion :=
  if MPL_LOG_NDEBUG cfg ≠ 0 then
    ⟨Code.doWhileZero (Code.ifZero (MPL_LOG_ALWAYS_FATAL cfg fmt va).code),
      (MPL_LOG_ALWAYS_FATAL cfg fmt va).diags⟩
  else
    MPL_LOG_ALWAYS_FATAL cfg fmt va

/-- Lines 249-259, `MPL_LOG_PRI_VA(priority, tag, fmt, args)`:
`android_vprintLog(priority, NULL, tag, fmt, args)` under `ANDROID`; else,
under `__KERNEL__`, the macro is not defined (`none`); else
`_MLPrintVaLog(priority, NULL, tag, fmt, args)`. -/
def MPL_LOG_PRI_VA (cfg : Config) (priority tag fmt args : Toks) : Option Expansion :=
  if cfg.ANDROID then
    some ⟨Code.call "android_vprintLog" [priority, [Tok.ident "NULL"], tag, fmt, args], []⟩
  else if cfg.__KERNEL__ then
    none
  else
    some ⟨Code.call "_MLPrintVaLog" [priority, [Tok.ident "NULL"], tag, fmt, args], []⟩

/-- A function declaration: name, the types and names of the named parameters,
and whether `...` follows them. -/
structure Prototype where
  name : String
  params : List (String × String)
  variadic : Bool
  deriving DecidableEq, Repr

/-- Lines 270-271: `int _MLPrintLog(int priority, const char *tag, const char *fmt, ...);` -/
def _MLPrintLog : Prototype :=
  ⟨"_MLPrintLog", [("int", "priority"), ("const char *", "tag"), ("const char *", "fmt")], true⟩

/-- Lines 272-273:
`int _MLPrintVaLog(int priority, const char *tag, const char *fmt, va_list args);` -/
def _MLPrintVaLog : Prototype :=
  ⟨"_MLPrintVaLog",
    [("int", "priority"), ("const char *", "tag"), ("const char *", "fmt"), ("va_list", "args")],
    false⟩

/-- Line 275: `int _MLWriteLog(const char *buf, int buflen);` -/
def _MLWriteLog : Prototype :=
  ⟨"_MLWriteLog", [("const char *", "buf"), ("int", "buflen")], false⟩

/-- Lines 269-276: the functions the header declares, none under `ANDROID`. -/
def declarations (cfg : Config) : List Prototype :=
  if cfg.ANDROID then [] else [_MLPrintLog, _MLPrintVaLog, _MLWriteLog]

/-! ## Execution of a replacement -/

/-- What running a replacement does that can be observed. -/
inductive Event where
  /-- An expression written by the caller is evaluated. -/
  | evaluate (expr : Toks)
  /-- A function is called; its arguments are evaluated for the call. -/
  | call (fn : String) (args : List Toks)
  deriving DecidableEq, Repr

/-- C evaluation of a replacement in a state `env` that gives every expression
of the caller its value: the value (0 where C gives none or an unknown one)
and the events in order.  The branch not chosen by `?:` and the statement
under `if (0)` are not evaluated; the body of `do ... while (0)` runs once. -/
def run (env : Toks → Int) : Code → Int × List Event
  | Code.frag t => (env t, [Event.evaluate t])
  | Code.paren e => run env e
  | Code.ne0 e => (if (run env e).1 ≠ 0 then 1 else 0, (run env e).2)
  | Code.call fn args => (0, [Event.call fn args])
  | Code.castVoid e => (0, (run env e).2)
  | Code.void0 => (0, [])
  | Code.cond c t e =>
    if (run env c).1 ≠ 0 then ((run env t).1, (run env c).2 ++ (run env t).2)
    else ((run env e).1, (run env c).2 ++ (run env e).2)
  | Code.semi e => (0, (run env e).2)
  | Code.ifZero _ => (0, [])
  | Code.doWhileZero s => (0, (run env s).2)

/-- The events of running a replacement. -/
def trace (env : Toks → Int) (c : Code) : List Event :=
  (run env c).2

/-- The function calls of a trace, in order. -/
def callsOf : List Event → List (String × List Toks)
  | [] => []
  | Event.evaluate _ :: tr => callsOf tr
  | Event.call fn args :: tr => (fn, args) :: callsOf tr

/-- Whether a tree is an expression. -/
def isExpr : Code → Bool
  | Code.frag _ => true
  | Code.paren e => isExpr e
  | Code.ne0 e => isExpr e
  | Code.call _ _ => true
  | Code.castVoid e => isExpr e
  | Code.void0 => true
  | Code.cond c t e => isExpr c && isExpr t && isExpr e
  | Code.semi _ => false
  | Code.ifZero _ => false
  | Code.doWhileZero _ => false

/-- Whether a tree is a statement: `if (0)` and `do { } while (0)` take a
statement, `;` makes one of an expression. -/
def isStmt : Code → Bool
  | Code.semi e => isExpr e
  | Code.ifZero s => isStmt s
  | Code.doWhileZero s => isStmt s
  | _ => false

/-- The functions a replacement names in a call, in order of appearance,
executed or not. -/
def callees : Code → List String
  | Code.frag _ => []
  | Code.paren e => callees e
  | Code.ne0 e => callees e
  | Code.call fn _ => [fn]
  | Code.castVoid e => callees e
  | Code.void0 => []
  | Code.cond c t e => callees c ++ callees t ++ callees e
  | Code.semi e => callees e
  | Code.ifZero s => callees s
  | Code.doWhileZero s => callees s

/-! ## The specification's view of the backends -/

/-- The three logging backends of the specification. -/
inductive Backend where
  | android
  | kernel
  | generic
  deriving DecidableEq, Repr

/-- The backend the specification has the build flags select: the Android
logger under `ANDROID`, the kernel log under `__KERNEL__` without `ANDROID`,
the generic C fallback otherwise. -/
def specBackend (cfg : Config) : Backend :=
  if cfg.ANDROID then Backend.android
  else if cfg.__KERNEL__ then Backend.kernel
  else Backend.generic

/-- The backend a logging function belongs to, in the specification's words:
`LOG` is the Android logger, `printk` and `pr_debug` the kernel facility,
`_MLPrintLog` the generic fallback. -/
def backendOf (fn : String) : Option Backend :=
  if fn = "LOG" then some Backend.android
  else if fn = "printk" then some Backend.kernel
  else if fn = "pr_debug" then some Backend.kernel
  else if fn = "_MLPrintLog" then some Backend.generic
  else none

/-- The backends a replacement references. -/
def backendsOf (c : Code) : List (Option Backend) :=
  (callees c).map backendOf

/-- The five levels of the level macros. -/
inductive Level where
  | VERBOSE
  | DEBUG
  | INFO
  | WARN
  | ERROR
  deriving DecidableEq, Repr

/-- The priority argument the header writes for a level: `LOG_VERBOSE`,
`LOG_DEBUG`, `LOG_INFO`, `LOG_WARN`, `LOG_ERROR`. -/
def Level.LOG : Level → Toks
  | Level.VERBOSE => [Tok.ident "LOG_VERBOSE"]
  | Level.DEBUG => [Tok.ident "LOG_DEBUG"]
  | Level.INFO => [Tok.ident "LOG_INFO"]
  | Level.WARN => [Tok.ident "LOG_WARN"]
  | Level.ERROR => [Tok.ident "LOG_ERROR"]

/-- The header's priority of a level: the macro `MPL_LOG_` followed by the
level's name. -/
def Level.MPL : Level → Toks
  | Level.VERBOSE => MPL_LOG_VERBOSE
  | Level.DEBUG => MPL_LOG_DEBUG
  | Level.INFO => MPL_LOG_INFO
  | Level.WARN => MPL_LOG_WARN
  | Level.ERROR => MPL_LOG_ERROR

/-- The kernel level the specification gives for a level: VERBOSE is
`KERN_CONT`, DEBUG `KERN_NOTICE`, INFO `KERN_INFO`, WARN `KERN_WARNING`, ERROR
`KERN_ERR`. -/
def Level.KERN : Level → Tok
  | Level.VERBOSE => Tok.ident "KERN_CONT"
  | Level.DEBUG => Tok.ident "KERN_NOTICE"
  | Level.INFO => Tok.ident "KERN_INFO"
  | Level.WARN => Tok.ident "KERN_WARNING"
  | Level.ERROR => Tok.ident "KERN_ERR"

/-! ## Configurations and inputs used in examples -/

/-- A kernel build with debugging on, default tag. -/
def kernelDebug : Config := ⟨false, true, false, none, none⟩

/-- A kernel build with `NDEBUG`, default tag. -/
def kernelRelease : Config := ⟨false, true, true, none, none⟩

/-- The generic build with no flag set. -/
def genericDebug : Config := ⟨false, false, false, none, none⟩

/-- An Android build with debugging on, default tag. -/
def androidDebug : Config := ⟨true, false, false, none, none⟩

/-- The format `"failed: %d"`. -/
def fmtFailed : Toks := [Tok.strLit "failed: %d"]

/-- The format `"bad value %d"`. -/
def fmtBadValue : Toks := [Tok.strLit "bad value %d"]

/-- The expression `x > 0`. -/
def xPositive : Toks := [Tok.ident "x", Tok.white, Tok.punct ">", Tok.white, Tok.number "0"]

/-- The state in which the variable `x` holds `x`: it gives `x > 0` its C
value, 1 or 0. -/
def stateX (x : Int) : Toks → Int :=
  fun t => if t = xPositive then (if x > 0 then 1 else 0) else 0

/-- Pasting `MPL_` to the priority argument of a level gives the header's
priority of that level, with no diagnostic. -/
theorem pasteMPL_level (l : Level) : pasteMPL l.LOG = (l.MPL, []) := by
  cases l <;> rfl

/-- The replacement of `MPL_LOG` at a level, in each of the three builds. -/
theorem MPL_LOG_level (cfg : Config) (l : Level) (tag fmt : Toks) (va : List Toks) :
    MPL_LOG cfg (l.LOG :: tag :: fmt :: va) =
      ⟨if cfg.ANDROID then Code.call "LOG" (l.LOG :: tag :: fmt :: va)
        else if cfg.__KERNEL__ then Code.call "pr_debug" ((l.MPL ++ tag ++ fmt) :: va)
        else Code.call "_MLPrintLog" (l.MPL :: tag :: fmt :: va), []⟩ := by
  simp only [MPL_LOG, MPL_LOG_PRI, pasteMPL_level]
  split <;> [rfl; (split <;> rfl)]

/-- The one backend `MPL_LOG` references at a level is the backend of the
build. -/
theorem backendsOf_MPL_LOG_level (cfg : Config) (l : Level) (tag fmt : Toks) (va : List Toks) :
    backendsOf (MPL_LOG cfg (l.LOG :: tag :: fmt :: va)).code = [some (specBackend cfg)] := by
  rw [MPL_LOG_level]
  cases ha : cfg.ANDROID <;> cases hk : cfg.__KERNEL__ <;>
    simp [backendsOf, callees, backendOf, specBackend, ha, hk]

/-- An `_IF` replacement references what its logging call references. -/
theorem backendsOf_conditional (cond : Toks) (c : Code) :
    backendsOf (Code.paren (Code.cond (Code.paren (CONDITION cond)) c Code.void0))
      = backendsOf c := by
  simp [backendsOf, callees, CONDITION]

/-- At a level `MPL_LOG` is one call, of a function of the build's backend. -/
theorem MPL_LOG_level_is_call (cfg : Config) (l : Level) (tag fmt : Toks) (va : List Toks) :
    ∃ fn args, (MPL_LOG cfg (l.LOG :: tag :: fmt :: va)).code = Code.call fn args
      ∧ backendOf fn = some (specBackend cfg) := by
  rw [MPL_LOG_level]
  cases ha : cfg.ANDROID <;> cases hk : cfg.__KERNEL__ <;>
    simp [backendOf, specBackend, ha, hk]

/-- The calls of an `_IF` replacement whose condition holds are those of its
logging call. -/
theorem callsOf_conditional (env : Toks → Int) (cond : Toks) (c : Code)
    (h : env cond ≠ 0) :
    callsOf (trace env (Code.paren (Code.cond (Code.paren (CONDITION cond)) c Code.void0)))
      = callsOf (trace env c) := by
  simp [trace, run, CONDITION, h, callsOf]

/-- Running `MPL_LOG` at a level makes exactly one call. -/
theorem callsOf_MPL_LOG_level (env : Toks → Int) (cfg : Config) (l : Level) (tag fmt : Toks)
    (va : List Toks) :
    (callsOf (trace env (MPL_LOG cfg (l.LOG :: tag :: fmt :: va)).code)).length = 1 := by
  obtain ⟨fn, args, h, -⟩ := MPL_LOG_level_is_call cfg l tag fmt va
  rw [h]
  rfl

/-- The stripped `MPL_LOGV` and `MPL_LOG_FATAL_IF` guard, under `if (0)` and
followed by `;`, the very replacement they have when not stripped. -/
theorem stripped_MPL_LOGV_and_MPL_LOG_FATAL_IF_guard_their_call (a k n : Bool)
    (t : Option String) (cond fmt : Toks) (va : List Toks) :
    (MPL_LOGV ⟨a, k, n, some 1, t⟩ fmt va).code
        = Code.doWhileZero (Code.ifZero (Code.semi (MPL_LOGV ⟨a, k, n, some 0, t⟩ fmt va).code))
    ∧ (MPL_LOG_FATAL_IF ⟨a, k, n, some 1, t⟩ cond fmt va).code
        = Code.doWhileZero (Code.ifZero (Code.semi
            (MPL_LOG_FATAL_IF ⟨a, k, n, some 0, t⟩ cond fmt va).code)) :=
  ⟨rfl, rfl⟩

/-! ## The claims -/

/-- C9: at each of the five levels `MPL_LOG(LOG_L, tag, fmt, args)` hands `tag`,
`fmt` and `args` on unchanged and in order: the Android build gives
`LOG(LOG_L, tag, fmt, args)`, the generic build
`_MLPrintLog(MPL_LOG_L, tag, fmt, args)`, the kernel build
`pr_debug(s, args)` with `s` the kernel level of `L`, then `tag`, then `fmt`,
and with the default empty `MPL_LOG_TAG` the kernel level followed by `fmt`;
`MPL_LOG_L` comes from pasting `MPL_` to `LOG_L` and is the kernel level of
`L`. -/
theorem MPL_LOG_passes_arguments_through (l : Level) (tag fmt : Toks) (va : List Toks)
    (k n : Bool) (u : Option Int) (t : Option String) :
    MPL_LOG ⟨true, k, n, u, t⟩ (l.LOG :: tag :: fmt :: va)
        = ⟨Code.call "LOG" (l.LOG :: tag :: fmt :: va), []⟩
    ∧ MPL_LOG ⟨false, false, n, u, t⟩ (l.LOG :: tag :: fmt :: va)
        = ⟨Code.call "_MLPrintLog" (l.MPL :: tag :: fmt :: va), []⟩
    ∧ MPL_LOG ⟨false, true, n, u, t⟩ (l.LOG :: tag :: fmt :: va)
        = ⟨Code.call "pr_debug" (([l.KERN] ++ tag ++ fmt) :: va), []⟩
    ∧ MPL_LOG ⟨false, true, n, u, none⟩
          (l.LOG :: MPL_LOG_TAG ⟨false, true, n, u, none⟩ :: fmt :: va)
        = ⟨Code.call "pr_debug" ((l.KERN :: fmt) :: va), []⟩
    ∧ pasteMPL l.LOG = (l.MPL, [])
    ∧ l.MPL = [l.KERN] := by
  refine ⟨?_, ?_, ?_, ?_, pasteMPL_level l, ?_⟩
  · rw [MPL_LOG_level]; rfl
  · rw [MPL_LOG_level]; rfl
  · rw [MPL_LOG_level]; cases l <;> rfl
  · rw [MPL_LOG_level]; cases l <;> rfl
  · cases l <;> rfl

/-- C2, as the code has it: in every build, the generic one included,
`MPL_LOGE(fmt, args)` expands to `printk(KERN_ERR MPL_LOG_TAG fmt, args)`;
with no flag set `MPL_LOGE("failed: %d", 5)` is
`printk(KERN_ERR "failed: %d", 5)`. -/
theorem MPL_LOGE_expands_to_printk (cfg : Config) (fmt : Toks) (va : List Toks) :
    MPL_LOGE cfg fmt va
        = ⟨Code.call "printk" ((MPL_LOG_ERROR ++ MPL_LOG_TAG cfg ++ fmt) :: va), []⟩
    ∧ MPL_LOGE genericDebug fmtFailed [[Tok.number "5"]]
        = ⟨Code.call "printk"
            [[Tok.ident "KERN_ERR", Tok.strLit "failed: %d"], [Tok.number "5"]], []⟩ :=
  ⟨rfl, rfl⟩

/-- C2 fails as stated: with no flag set `MPL_LOGE("failed: %d", 5)` is not
`_MLPrintLog(MPL_LOG_ERROR, MPL_LOG_TAG, "failed: %d", 5)`. -/
theorem MPL_LOGE_generic_is_not_MLPrintLog :
    (MPL_LOGE genericDebug fmtFailed [[Tok.number "5"]]).code
        ≠ Code.call "_MLPrintLog"
            [MPL_LOG_ERROR, MPL_LOG_TAG genericDebug, fmtFailed, [Tok.number "5"]]
    ∧ callees (MPL_LOGE genericDebug fmtFailed [[Tok.number "5"]]).code = ["printk"] := by
  decide

/-- C1, as the code has it: in every build `MPL_LOGD`, `MPL_LOGI` and the four
`_IF` macros of the debug, info, warn and error levels each reference exactly
one backend, the one the build flags select; `MPL_LOGW` and `MPL_LOGE`
reference exactly the kernel backend (`printk`) in every build, so that in a
`__KERNEL__` build without `ANDROID` all eight reference the kernel backend. -/
theorem level_macros_backends (cfg : Config) (cond fmt : Toks) (va : List Toks)
    (n : Bool) (u : Option Int) (t : Option String) :
    (backendsOf (MPL_LOGD cfg fmt va).code = [some (specBackend cfg)]
      ∧ backendsOf (MPL_LOGI cfg fmt va).code = [some (specBackend cfg)]
      ∧ backendsOf (MPL_LOGD_IF cfg cond fmt va).code = [some (specBackend cfg)]
      ∧ backendsOf (MPL_LOGI_IF cfg cond fmt va).code = [some (specBackend cfg)]
      ∧ backendsOf (MPL_LOGW_IF cfg cond fmt va).code = [some (specBackend cfg)]
      ∧ backendsOf (MPL_LOGE_IF cfg cond fmt va).code = [some (specBackend cfg)])
    ∧ (backendsOf (MPL_LOGW cfg fmt va).code = [some Backend.kernel]
      ∧ backendsOf (MPL_LOGE cfg fmt va).code = [some Backend.kernel])
    ∧ (specBackend ⟨false, true, n, u, t⟩ = Backend.kernel
      ∧ [(MPL_LOGD ⟨false, true, n, u, t⟩ fmt va).code,
          (MPL_LOGI ⟨false, true, n, u, t⟩ fmt va).code,
          (MPL_LOGW ⟨false, true, n, u, t⟩ fmt va).code,
          (MPL_LOGE ⟨false, true, n, u, t⟩ fmt va).code,
          (MPL_LOGD_IF ⟨false, true, n, u, t⟩ cond fmt va).code,
          (MPL_LOGI_IF ⟨false, true, n, u, t⟩ cond fmt va).code,
          (MPL_LOGW_IF ⟨false, true, n, u, t⟩ cond fmt va).code,
          (MPL_LOGE_IF ⟨false, true, n, u, t⟩ cond fmt va).code].map backendsOf
        = List.replicate 8 [some Backend.kernel]) := by
  have hD := fun c => backendsOf_MPL_LOG_level c Level.DEBUG
  have hI := fun c => backendsOf_MPL_LOG_level c Level.INFO
  have hW := fun c => backendsOf_MPL_LOG_level c Level.WARN
  have hE := fun c => backendsOf_MPL_LOG_level c Level.ERROR
  have hWk : ∀ c, backendsOf (MPL_LOGW c fmt va).code = [some Backend.kernel] := fun _ => rfl
  have hEk : ∀ c, backendsOf (MPL_LOGE c fmt va).code = [some Backend.kernel] := fun _ => rfl
  refine ⟨⟨hD _ _ _ _, hI _ _ _ _, ?_, ?_, ?_, ?_⟩, ⟨hWk _, hEk _⟩, rfl, ?_⟩
  · exact (backendsOf_conditional _ _).trans (hD _ _ _ _)
  · exact (backendsOf_conditional _ _).trans (hI _ _ _ _)
  · exact (backendsOf_conditional _ _).trans (hW _ _ _ _)
  · exact (backendsOf_conditional _ _).trans (hE _ _ _ _)
  · have e1 : backendsOf (MPL_LOGD ⟨false, true, n, u, t⟩ fmt va).code
        = [some Backend.kernel] := hD _ _ _ _
    have e2 : backendsOf (MPL_LOGI ⟨false, true, n, u, t⟩ fmt va).code
        = [some Backend.kernel] := hI _ _ _ _
    have e3 : backendsOf (MPL_LOGD_IF ⟨false, true, n, u, t⟩ cond fmt va).code
        = [some Backend.kernel] := (backendsOf_conditional _ _).trans (hD _ _ _ _)
    have e4 : backendsOf (MPL_LOGI_IF ⟨false, true, n, u, t⟩ cond fmt va).code
        = [some Backend.kernel] := (backendsOf_conditional _ _).trans (hI _ _ _ _)
    have e5 : backendsOf (MPL_LOGW_IF ⟨false, true, n, u, t⟩ cond fmt va).code
        = [some Backend.kernel] := (backendsOf_conditional _ _).trans (hW _ _ _ _)
    have e6 : backendsOf (MPL_LOGE_IF ⟨false, true, n, u, t⟩ cond fmt va).code
        = [some Backend.kernel] := (backendsOf_conditional _ _).trans (hE _ _ _ _)
    simp only [List.map, List.replicate]
    rw [e1, e2, e3, e4, e5, e6, hWk, hEk]

/-- C1 fails as stated: with no flag set `MPL_LOGE` references the kernel
backend, not the generic one the flags select, and in an Android build
`MPL_LOGD` and `MPL_LOGW` reference different backends. -/
theorem level_macros_backend_mismatch :
    backendsOf (MPL_LOGE genericDebug fmtFailed [[Tok.number "5"]]).code
        ≠ [some (specBackend genericDebug)]
    ∧ backendsOf (MPL_LOGD androidDebug fmtFailed [[Tok.number "5"]]).code
        ≠ backendsOf (MPL_LOGW androidDebug fmtFailed [[Tok.number "5"]]).code := by
  decide

/-- C4: `MPL_LOG_ALWAYS_FATAL_IF(cond, fmt, args)` evaluates `cond` and then,
iff its value is not 0, calls `android_printAssert` once with the text of
`cond`, `MPL_LOG_TAG`, `fmt` and `args`; with value 0 nothing more happens.
`MPL_LOG_ALWAYS_FATAL_IF(x > 0, "bad value %d", x)` calls
`android_printAssert("x > 0", , "bad value %d", x)` for `x = 3` and calls
nothing for `x = -1`. -/
theorem MPL_LOG_ALWAYS_FATAL_IF_fires_iff_condition (cfg : Config) (env : Toks → Int)
    (cond fmt : Toks) (va : List Toks) :
    trace env (MPL_LOG_ALWAYS_FATAL_IF cfg cond fmt va).code
        = Event.evaluate cond ::
            (if env cond ≠ 0 then
              [Event.call "android_printAssert"
                ([stringify cond] :: MPL_LOG_TAG cfg :: fmt :: va)]
            else [])
    ∧ trace (stateX 3)
          (MPL_LOG_ALWAYS_FATAL_IF kernelDebug xPositive fmtBadValue [[Tok.ident "x"]]).code
        = [Event.evaluate xPositive,
            Event.call "android_printAssert"
              [[Tok.strLit "x > 0"], [], [Tok.strLit "bad value %d"], [Tok.ident "x"]]]
    ∧ trace (stateX (-1))
          (MPL_LOG_ALWAYS_FATAL_IF kernelDebug xPositive fmtBadValue [[Tok.ident "x"]]).code
        = [Event.evaluate xPositive] := by
  refine ⟨?_, by decide, by decide⟩
  by_cases h : env cond = 0 <;> simp [MPL_LOG_ALWAYS_FATAL_IF, trace, run, CONDITION, h]

/-- C6 fails on the code.  In a kernel release build the statement under
`if (0)` in `MPL_LOGV_IF(x > 0, "bad value %d", x)` is
`MPL_LOG("bad value %d", x);`, an invocation without priority and tag that has
too few arguments to expand, whereas the same macro with debugging on calls
`pr_debug(KERN_CONT "bad value %d", x)` and the stripped `MPL_LOGV` does guard
that call.  In the stripped `MPL_LOG_FATAL` the invocation under `if (0)` has
no `;`, so that the replacement is no statement, unlike that of the stripped
`MPL_LOG_FATAL_IF`. -/
theorem stripped_MPL_LOGV_IF_guards_another_call :
    MPL_LOGV_IF kernelRelease xPositive fmtBadValue [[Tok.ident "x"]]
        = ⟨Code.doWhileZero (Code.ifZero (Code.semi
              (Code.call "MPL_LOG" [[Tok.strLit "bad value %d"], [Tok.ident "x"]]))),
            [Diag.tooFewArgs "MPL_LOG" 3 2]⟩
    ∧ MPL_LOGV_IF kernelDebug xPositive fmtBadValue [[Tok.ident "x"]]
        = ⟨Code.paren (Code.cond (Code.paren (CONDITION xPositive))
              (Code.call "pr_debug"
                [[Tok.ident "KERN_CONT", Tok.strLit "bad value %d"], [Tok.ident "x"]])
              Code.void0),
            []⟩
    ∧ MPL_LOGV kernelRelease fmtBadValue [[Tok.ident "x"]]
        = ⟨Code.doWhileZero (Code.ifZero (Code.semi
              (Code.call "pr_debug"
                [[Tok.ident "KERN_CONT", Tok.strLit "bad value %d"], [Tok.ident "x"]]))),
            []⟩
    ∧ MPL_LOG_FATAL kernelRelease fmtBadValue [[Tok.ident "x"]]
        = ⟨Code.doWhileZero (Code.ifZero
              (MPL_LOG_FATAL kernelDebug fmtBadValue [[Tok.ident "x"]]).code),
            []⟩
    ∧ isStmt (MPL_LOG_FATAL kernelRelease fmtBadValue [[Tok.ident "x"]]).code = false
    ∧ isStmt (MPL_LOG_FATAL_IF kernelRelease xPositive fmtBadValue [[Tok.ident "x"]]).code
        = true := by
  decide

/-- C7: the replacements of `MPL_LOGD`, `MPL_LOGI`, `MPL_LOGW`, `MPL_LOGE`, of
their `_IF` forms, of `MPL_LOG_ALWAYS_FATAL_IF` and of `MPL_LOG_ALWAYS_FATAL`
are the same in two builds that differ only in `NDEBUG` and in the translation
unit's `MPL_LOG_NDEBUG`, whatever the value of `MPL_LOG_NDEBUG` in each. -/
theorem unstripped_macros_ignore_MPL_LOG_NDEBUG (a k n n' : Bool) (u u' : Option Int)
    (t : Option String) (cond fmt : Toks) (va : List Toks) :
    MPL_LOGD ⟨a, k, n, u, t⟩ fmt va = MPL_LOGD ⟨a, k, n', u', t⟩ fmt va
    ∧ MPL_LOGI ⟨a, k, n, u, t⟩ fmt va = MPL_LOGI ⟨a, k, n', u', t⟩ fmt va
    ∧ MPL_LOGW ⟨a, k, n, u, t⟩ fmt va = MPL_LOGW ⟨a, k, n', u', t⟩ fmt va
    ∧ MPL_LOGE ⟨a, k, n, u, t⟩ fmt va = MPL_LOGE ⟨a, k, n', u', t⟩ fmt va
    ∧ MPL_LOGD_IF ⟨a, k, n, u, t⟩ cond fmt va = MPL_LOGD_IF ⟨a, k, n', u', t⟩ cond fmt va
    ∧ MPL_LOGI_IF ⟨a, k, n, u, t⟩ cond fmt va = MPL_LOGI_IF ⟨a, k, n', u', t⟩ cond fmt va
    ∧ MPL_LOGW_IF ⟨a, k, n, u, t⟩ cond fmt va = MPL_LOGW_IF ⟨a, k, n', u', t⟩ cond fmt va
    ∧ MPL_LOGE_IF ⟨a, k, n, u, t⟩ cond fmt va = MPL_LOGE_IF ⟨a, k, n', u', t⟩ cond fmt va
    ∧ MPL_LOG_ALWAYS_FATAL_IF ⟨a, k, n, u, t⟩ cond fmt va
        = MPL_LOG_ALWAYS_FATAL_IF ⟨a, k, n', u', t⟩ cond fmt va
    ∧ MPL_LOG_ALWAYS_FATAL ⟨a, k, n, u, t⟩ fmt va
        = MPL_LOG_ALWAYS_FATAL ⟨a, k, n', u', t⟩ fmt va :=
  ⟨rfl, rfl, rfl, rfl, rfl, rfl, rfl, rfl, rfl, rfl⟩

/-- C8 fails on the code.  In the generic build
`MPL_LOG_PRI_VA(priority, tag, fmt, args)` expands to
`_MLPrintVaLog(priority, NULL, tag, fmt, args)`, a call with five arguments,
`NULL` standing second, of a function the header declares with the four
parameters `priority`, `tag`, `fmt`, `args`; in a kernel build without
`ANDROID` the macro is not defined. -/
theorem MPL_LOG_PRI_VA_passes_five_arguments (n : Bool) (u : Option Int) (t : Option String)
    (priority tag fmt args : Toks) :
    MPL_LOG_PRI_VA ⟨false, false, n, u, t⟩ priority tag fmt args
        = some ⟨Code.call "_MLPrintVaLog" [priority, [Tok.ident "NULL"], tag, fmt, args], []⟩
    ∧ [priority, [Tok.ident "NULL"], tag, fmt, args].length = 5
    ∧ _MLPrintVaLog ∈ declarations ⟨false, false, n, u, t⟩
    ∧ _MLPrintVaLog.params.map Prod.snd = ["priority", "tag", "fmt", "args"]
    ∧ _MLPrintVaLog.variadic = false
    ∧ MPL_LOG_PRI_VA ⟨false, true, n, u, t⟩ priority tag fmt args = none := by
  refine ⟨rfl, rfl, ?_, rfl, rfl, rfl⟩
  simp [declarations]

/-- C10, as the code has it.  With `cond` not 0, `MPL_LOGD_IF` and `MPL_LOGI_IF`
in every build, and `MPL_LOGV_IF` when `MPL_LOG_NDEBUG` is 0, make the same one
call as `MPL_LOGD`, `MPL_LOGI` and `MPL_LOGV`.  `MPL_LOGW_IF` and `MPL_LOGE_IF`
make the call of `MPL_LOG` at their level, to the backend of the build, while
`MPL_LOGW` and `MPL_LOGE` call `printk`; in a kernel build the two make their
call with the same arguments, the one to `pr_debug` and the other to
`printk`. -/
theorem conditional_and_unconditional_calls (cfg : Config) (env : Toks → Int)
    (cond fmt : Toks) (va : List Toks) (h : env cond ≠ 0) :
    (callsOf (trace env (MPL_LOGD_IF cfg cond fmt va).code)
        = callsOf (trace env (MPL_LOGD cfg fmt va).code)
      ∧ (callsOf (trace env (MPL_LOGD cfg fmt va).code)).length = 1)
    ∧ (callsOf (trace env (MPL_LOGI_IF cfg cond fmt va).code)
        = callsOf (trace env (MPL_LOGI cfg fmt va).code)
      ∧ (callsOf (trace env (MPL_LOGI cfg fmt va).code)).length = 1)
    ∧ (MPL_LOG_NDEBUG cfg = 0 →
        callsOf (trace env (MPL_LOGV_IF cfg cond fmt va).code)
          = callsOf (trace env (MPL_LOGV cfg fmt va).code)
        ∧ (callsOf (trace env (MPL_LOGV cfg fmt va).code)).length = 1)
    ∧ (callsOf (trace env (MPL_LOGW_IF cfg cond fmt va).code)
        = callsOf (trace env (MPL_LOG cfg (Level.WARN.LOG :: MPL_LOG_TAG cfg :: fmt :: va)).code)
      ∧ callsOf (trace env (MPL_LOGW cfg fmt va).code)
        = [("printk", (MPL_LOG_WARN ++ MPL_LOG_TAG cfg ++ fmt) :: va)])
    ∧ (callsOf (trace env (MPL_LOGE_IF cfg cond fmt va).code)
        = callsOf (trace env (MPL_LOG cfg (Level.ERROR.LOG :: MPL_LOG_TAG cfg :: fmt :: va)).code)
      ∧ callsOf (trace env (MPL_LOGE cfg fmt va).code)
        = [("printk", (MPL_LOG_ERROR ++ MPL_LOG_TAG cfg ++ fmt) :: va)])
    ∧ (cfg.ANDROID = false → cfg.__KERNEL__ = true →
        callsOf (trace env (MPL_LOGW_IF cfg cond fmt va).code)
          = [("pr_debug", (MPL_LOG_WARN ++ MPL_LOG_TAG cfg ++ fmt) :: va)]
        ∧ callsOf (trace env (MPL_LOGE_IF cfg cond fmt va).code)
          = [("pr_debug", (MPL_LOG_ERROR ++ MPL_LOG_TAG cfg ++ fmt) :: va)]) := by
  refine ⟨⟨callsOf_conditional env cond _ h, callsOf_MPL_LOG_level env cfg Level.DEBUG _ _ _⟩,
    ⟨callsOf_conditional env cond _ h, callsOf_MPL_LOG_level env cfg Level.INFO _ _ _⟩,
    ?_, ⟨callsOf_conditional env cond _ h, rfl⟩, ⟨callsOf_conditional env cond _ h, rfl⟩, ?_⟩
  · intro hn
    have h1 := callsOf_conditional env cond
      (MPL_LOG cfg (Level.VERBOSE.LOG :: MPL_LOG_TAG cfg :: fmt :: va)).code h
    have h2 := callsOf_MPL_LOG_level env cfg Level.VERBOSE (MPL_LOG_TAG cfg) fmt va
    simp only [MPL_LOGV_IF, MPL_LOGV, hn, ne_eq, not_true_eq_false, if_false]
    exact ⟨h1, h2⟩
  · intro ha hk
    have key : ∀ l : Level,
        callsOf (trace env (MPL_LOG cfg (l.LOG :: MPL_LOG_TAG cfg :: fmt :: va)).code)
          = [("pr_debug", (l.MPL ++ MPL_LOG_TAG cfg ++ fmt) :: va)] := by
      intro l
      rw [MPL_LOG_level]
      simp [ha, hk, trace, run, callsOf]
    exact ⟨(callsOf_conditional env cond _ h).trans (key Level.WARN),
      (callsOf_conditional env cond _ h).trans (key Level.ERROR)⟩

/-- C10 at a concrete input: in a kernel build with debugging on and `x = 3`,
`MPL_LOGV_IF(x > 0, "bad value %d", x)` makes the call of
`MPL_LOGV("bad value %d", x)`, which is
`pr_debug(KERN_CONT "bad value %d", x)`. -/
theorem conditional_and_unconditional_calls_witness :
    stateX 3 xPositive ≠ 0
    ∧ MPL_LOG_NDEBUG kernelDebug = 0
    ∧ callsOf (trace (stateX 3)
          (MPL_LOGV_IF kernelDebug xPositive fmtBadValue [[Tok.ident "x"]]).code)
        = callsOf (trace (stateX 3) (MPL_LOGV kernelDebug fmtBadValue [[Tok.ident "x"]]).code)
    ∧ callsOf (trace (stateX 3) (MPL_LOGV kernelDebug fmtBadValue [[Tok.ident "x"]]).code)
        = [("pr_debug", [[Tok.ident "KERN_CONT", Tok.strLit "bad value %d"], [Tok.ident "x"]])] :=
  ⟨by decide, by decide,
    ((conditional_and_unconditional_calls kernelDebug (stateX 3) xPositive fmtBadValue
      [[Tok.ident "x"]] (by decide)).2.2.1 (by decide)).1,
    by decide⟩

/-- C10 fails as stated: in a kernel build with `x = 3`,
`MPL_LOGW_IF(x > 0, "bad value %d", x)` calls `pr_debug` and
`MPL_LOGW("bad value %d", x)` calls `printk`; with no flag set `MPL_LOGE_IF`
calls `_MLPrintLog` and `MPL_LOGE` calls `printk`. -/
theorem MPL_LOGW_IF_differs_from_MPL_LOGW :
    stateX 3 xPositive ≠ 0
    ∧ callsOf (trace (stateX 3)
          (MPL_LOGW_IF kernelDebug xPositive fmtBadValue [[Tok.ident "x"]]).code)
        = [("pr_debug",
            [[Tok.ident "KERN_WARNING", Tok.strLit "bad value %d"], [Tok.ident "x"]])]
    ∧ callsOf (trace (stateX 3) (MPL_LOGW kernelDebug fmtBadValue [[Tok.ident "x"]]).code)
        = [("printk", [[Tok.ident "KERN_WARNING", Tok.strLit "bad value %d"], [Tok.ident "x"]])]
    ∧ callsOf (trace (stateX 3)
          (MPL_LOGW_IF kernelDebug xPositive fmtBadValue [[Tok.ident "x"]]).code)
        ≠ callsOf (trace (stateX 3) (MPL_LOGW kernelDebug fmtBadValue [[Tok.ident "x"]]).code)
    ∧ callsOf (trace (stateX 3)
          (MPL_LOGE_IF genericDebug xPositive fmtBadValue [[Tok.ident "x"]]).code)
        ≠ callsOf (trace (stateX 3) (MPL_LOGE genericDebug fmtBadValue [[Tok.ident "x"]]).code) := by
  decide

end MplLog
